import Mathlib

/-!
Shallow embedding of the Xapod wallpaper program (`src/main.rs`) and proofs
about its specification.  The program fetches NASA APOD metadata, downloads
the `hdurl` image into the OS pictures directory and sets it as wallpaper.

Effects are made explicit:
  * HTTP responses are oracles `String → Except String _` (URL to outcome);
  * the process environment is an association list `List (String × String)`;
  * the filesystem is an association list `FS` from filename to byte list;
  * external commands are an oracle returning a `CmdOutput`;
  * `main` returns a `MainOutcome` recording network calls, stderr lines,
    a possible panic message, the exit status and the final filesystem.
-/

/-- JSON values, as produced by a successful parse of a response body. -/
inductive Json where
  | str (s : String)
  | num (n : Int)
  | boolean (b : Bool)
  | null
  | arr (elems : List Json)
  | obj (fields : List (String × Json))

/-- The deserialization target of the APOD metadata response:
`struct ApiResponse { hdurl: String }` (main.rs lines 11-14). -/
structure ApiResponse where
  hdurl : String
  deriving DecidableEq

/-- Serde-derived map visitor for `ApiResponse`: walk the object fields in
order; an unknown key is skipped, a second `hdurl` key is a duplicate-field
error, a non-string `hdurl` value is a type error; at the end a still-unset
`hdurl` is a missing-field error. -/
def findHdurl : List (String × Json) → Option String → Except String String
  | [], none => Except.error "missing field hdurl"
  | [], some s => Except.ok s
  | (k, v) :: rest, acc =>
    if k = "hdurl" then
      match acc with
      | some _ => Except.error "duplicate field hdurl"
      | none =>
        match v with
        | Json.str s => findHdurl rest (some s)
        | _ => Except.error "invalid type for field hdurl"
    else
      findHdurl rest acc

/-- `serde_json` deserialization of `ApiResponse` from a parsed JSON value:
only a JSON object can produce an `ApiResponse`. -/
def deserializeApiResponse : Json → Except String ApiResponse
  | Json.obj fields =>
    match findHdurl fields none with
    | Except.ok s => Except.ok ⟨s⟩
    | Except.error e => Except.error e
  | _ => Except.error "invalid type: expected object"

/-- `fetch_image_data` (main.rs lines 16-20): one blocking GET of `api_url`,
then `response.json::<ApiResponse>()`.  `http` maps a URL to either a
transport error or the parsed JSON body; every `?` propagates the error. -/
def fetch_image_data (http : String → Except String Json) (api_url : String) :
    Except String ApiResponse :=
  match http api_url with
  | Except.error e => Except.error e
  | Except.ok body => deserializeApiResponse body

/-- The filesystem: an association list from filename to file content
(a list of bytes, each a `Nat`). -/
def FS : Type := List (String × List Nat)

/-- Look up the content of a file. -/
def FS.lookup (fs : FS) (name : String) : Option (List Nat) :=
  match fs with
  | [] => none
  | (n, c) :: rest => if n = name then some c else FS.lookup rest name

/-- Create or truncate-and-rewrite a file: replace an existing entry for
`name`, or append a new one. -/
def FS.setFile (fs : FS) (name : String) (content : List Nat) : FS :=
  match fs with
  | [] => [(name, content)]
  | (n, c) :: rest =>
    if n = name then (name, content) :: rest
    else (n, c) :: FS.setFile rest name content

/-- `download_image` (main.rs lines 22-28).  Effects in source order:
`get(url)` (transport outcome is the outer `Except` of `http url`), then
`File::create(filename)` which truncates or creates the file, then
`response.bytes()` reading the whole body (the inner `Except`), then
`io::copy` writing the buffered bytes to the file.  `createRes` is the
outcome of `File::create`; `copyFail = some (k, e)` means the copy fails
with error `e` after writing the first `k` bytes.  Returns the `Result`
together with the filesystem after the call; no cleanup is ever done. -/
def download_image (http : String → Except String (Except String (List Nat)))
    (createRes : Except String Unit) (copyFail : Option (Nat × String))
    (fs : FS) (url filename : String) : Except String String × FS :=
  match http url with
  | Except.error e => (Except.error e, fs)
  | Except.ok bodyRes =>
    match createRes with
    | Except.error e => (Except.error e, fs)
    | Except.ok _ =>
      let fs1 := FS.setFile fs filename []
      match bodyRes with
      | Except.error e => (Except.error e, fs1)
      | Except.ok content =>
        match copyFail with
        | some (k, e) => (Except.error e, FS.setFile fs1 filename (content.take k))
        | none => (Except.ok filename, FS.setFile fs1 filename content)

/-- Substring test on character lists: does `pat` occur contiguously in
`hay`?  (Rust `str::contains` with a literal pattern, case-sensitive.) -/
def listContainsSub (hay pat : List Char) : Bool :=
  match hay with
  | [] => pat.isEmpty
  | _ :: t => if pat.isPrefixOf hay then true else listContainsSub t pat

/-- Rust `str::contains`: case-sensitive substring containment. -/
def strContains (s pat : String) : Bool :=
  listContainsSub s.toList pat.toList

/-- Captured output of an external command (`std::process::Output`):
its exit status and its captured standard-error text. -/
structure CmdOutput where
  success : Bool
  errText : String

namespace windows_background

/-- `windows_background::set_wallpaper` (main.rs lines 38-49): encodes the
path as a null-terminated wide string, performs the
`SystemParametersInfoW(SPI_SETDESKWALLPAPER, ...)` call — whose result is
discarded by `let _ = ...` — and returns `Ok(())` unconditionally.
`sysCall` is the oracle for the native call's result; the second component
records that the call was issued with the given path. -/
def set_wallpaper (sysCall : String → Bool) (path : String) :
    Except String Unit × List String :=
  let _ := sysCall path
  (Except.ok (), [path])

end windows_background

namespace linux_background

/-- Arguments passed to `gsettings` on the GNOME branch. -/
def gnomeArgs (path : String) : List String :=
  ["set", "org.gnome.desktop.background", "picture-uri", "file://" ++ path]

/-- The Plasma script embedded on the KDE branch (the `format!` literal of
main.rs lines 82-91 with the path interpolated). -/
def kdeScript (path : String) : String :=
  "\n                var allDesktops = desktops();\n                    d = allDesktops[0];\n                    d.wallpaperPlugin = \"org.kde.image\";\n                    d.currentConfigGroup = Array(\"Wallpaper\", \"org.kde.image\", \"General\");\n                    d.writeConfig(\"Image\", \"file://" ++ path ++ "\")\n                "

/-- Arguments passed to `qdbus` on the KDE branch. -/
def kdeArgs (path : String) : List String :=
  ["org.kde.plasmashell", "/PlasmaShell", "org.kde.PlasmaShell.evaluateScript",
   kdeScript path]

/-- `linux_background::set_wallpaper` (main.rs lines 58-115).  Reads
`XDG_CURRENT_DESKTOP` (absent ⇒ `unwrap_or_default()` ⇒ `""`), then a
guarded match in source order: a value containing `"GNOME"` runs
`gsettings`, otherwise a value containing `"KDE"` runs `qdbus`, otherwise
the unsupported-desktop error.  `runCmd` maps a program and argument list
to a spawn error (`Command::output` failing) or a `CmdOutput`; the second
component of the result lists the external commands actually invoked. -/
def set_wallpaper (xdg : Option String)
    (runCmd : String → List String → Except String CmdOutput)
    (path : String) : Except String Unit × List (String × List String) :=
  let desktopEnv := xdg.getD ""
  if strContains desktopEnv "GNOME" then
    match runCmd "gsettings" (gnomeArgs path) with
    | Except.error e => (Except.error e, [("gsettings", gnomeArgs path)])
    | Except.ok out =>
      if out.success then (Except.ok (), [("gsettings", gnomeArgs path)])
      else
        (Except.error ("Failed to set GNOME wallpaper: " ++ out.errText),
         [("gsettings", gnomeArgs path)])
  else if strContains desktopEnv "KDE" then
    match runCmd "qdbus" (kdeArgs path) with
    | Except.error e => (Except.error e, [("qdbus", kdeArgs path)])
    | Except.ok out =>
      if out.success then (Except.ok (), [("qdbus", kdeArgs path)])
      else
        (Except.error ("Failed to set KDE wallpaper: " ++ out.errText),
         [("qdbus", kdeArgs path)])
  else
    (Except.error "Unsupported desktop environment", [])

end linux_background

/-- `std::env::var`: first binding of the key in the process environment
(the environment as it stands after `dotenv().ok()` has merged any `.env`
file, whose absence is silently tolerated). -/
def envVar (env : List (String × String)) (key : String) : Option String :=
  (env.find? fun p => p.1 == key).map Prod.snd

/-- The metadata URL built in main.rs line 123:
`format!("https://api.nasa.gov/planetary/apod?api_key={api_key}")`. -/
def apodUrl (apiKey : String) : String :=
  "https://api.nasa.gov/planetary/apod?api_key=" ++ apiKey

/-- `PathBuf::join` of the pictures directory and the fixed filename. -/
def joinPath (dir file : String) : String :=
  dir ++ "/" ++ file

/-- The ambient world `main` runs in: the environment, the two HTTP
oracles, the `File::create` / `io::copy` outcomes, the resolution of
`dirs::picture_dir()`, the external-command oracle and the filesystem. -/
structure World where
  env : List (String × String)
  fetchResp : String → Except String Json
  dlResp : String → Except String (Except String (List Nat))
  createRes : Except String Unit
  copyFail : Option (Nat × String)
  pictureDir : Option String
  runCmd : String → List String → Except String CmdOutput
  fs : FS

/-- Observable outcome of one process run: the URLs GET-ed in order, the
lines `eprintln!` wrote to the error stream, the panic message if the
process panicked (`expect`), whether the process exited with the default
success status, the final filesystem, and the external commands spawned. -/
structure MainOutcome where
  netCalls : List String
  stderrLines : List String
  panicMsg : Option String
  exitSuccess : Bool
  fs : FS
  cmdCalls : List (String × List String)

/-- `main` (main.rs lines 118-161), Linux build.  `dotenv().ok()` is folded
into `World.env`.  A missing `APOD_KEY` panics via `expect` before any
network call; a fetch failure, download failure or wallpaper failure each
print one line to the error stream and fall through to the normal end of
`main` (default success exit); an unresolvable pictures directory panics
via `expect` after the fetch. -/
def mainRun (w : World) : MainOutcome :=
  match envVar w.env "APOD_KEY" with
  | none =>
    { netCalls := [], stderrLines := [],
      panicMsg := some "APOD_KEY must be set in the environment",
      exitSuccess := false, fs := w.fs, cmdCalls := [] }
  | some apiKey =>
    let apiUrl := apodUrl apiKey
    match fetch_image_data w.fetchResp apiUrl with
    | Except.error e =>
      { netCalls := [apiUrl],
        stderrLines := ["Failed to fetch image data: " ++ e],
        panicMsg := none, exitSuccess := true, fs := w.fs, cmdCalls := [] }
    | Except.ok apiResponse =>
      match w.pictureDir with
      | none =>
        { netCalls := [apiUrl], stderrLines := [],
          panicMsg := some "Could not find picture directory",
          exitSuccess := false, fs := w.fs, cmdCalls := [] }
      | some dir =>
        let downloadPath := joinPath dir "apod.jpg"
        match download_image w.dlResp w.createRes w.copyFail w.fs
            apiResponse.hdurl downloadPath with
        | (Except.error e, fs1) =>
          { netCalls := [apiUrl, apiResponse.hdurl],
            stderrLines := ["Failed to download image: " ++ e],
            panicMsg := none, exitSuccess := true, fs := fs1, cmdCalls := [] }
        | (Except.ok path, fs1) =>
          match linux_background.set_wallpaper
              (envVar w.env "XDG_CURRENT_DESKTOP") w.runCmd path with
          | (Except.error e, cmds) =>
            { netCalls := [apiUrl, apiResponse.hdurl],
              stderrLines := ["Failed to set wallpaper on Linux: " ++ e],
              panicMsg := none, exitSuccess := true, fs := fs1,
              cmdCalls := cmds }
          | (Except.ok _, cmds) =>
            { netCalls := [apiUrl, apiResponse.hdurl], stderrLines := [],
              panicMsg := none, exitSuccess := true, fs := fs1,
              cmdCalls := cmds }

/-! ## Helper lemmas -/

theorem findHdurl_no_key (fs : List (String × Json)) (s : String)
    (h : ∀ p ∈ fs, p.1 ≠ "hdurl") : findHdurl fs (some s) = Except.ok s := by
  induction fs with
  | nil => rfl
  | cons p rest ih =>
    obtain ⟨k, v⟩ := p
    have hk : k ≠ "hdurl" := h (k, v) (List.mem_cons_self _ _)
    simp only [findHdurl, if_neg hk]
    exact ih fun q hq => h q (List.mem_cons_of_mem _ hq)

theorem findHdurl_mem (fs : List (String × Json)) (s : String)
    (hmem : ("hdurl", Json.str s) ∈ fs)
    (hnodup : (fs.map Prod.fst).Nodup) : findHdurl fs none = Except.ok s := by
  induction fs with
  | nil => cases hmem
  | cons p rest ih =>
    obtain ⟨k, v⟩ := p
    simp only [List.map_cons, List.nodup_cons] at hnodup
    obtain ⟨hknot, hrest⟩ := hnodup
    by_cases hk : k = "hdurl"
    · subst hk
      have hv : v = Json.str s := by
        rcases List.mem_cons.mp hmem with heq | hmemr
        · exact (Prod.ext_iff.mp heq).2.symm
        · exact absurd (List.mem_map.mpr ⟨_, hmemr, rfl⟩) hknot
      subst hv
      simp only [findHdurl, if_pos rfl]
      exact findHdurl_no_key rest s fun q hq heq =>
        hknot (List.mem_map.mpr ⟨q, hq, heq⟩)
    · simp only [findHdurl, if_neg hk]
      rcases List.mem_cons.mp hmem with heq | hmemr
      · exact absurd (Prod.ext_iff.mp heq).1.symm hk
      · exact ih hmemr hrest

theorem findHdurl_no_string (fs : List (String × Json))
    (h : ∀ v, ("hdurl", v) ∈ fs → ∀ t, v ≠ Json.str t) :
    ∃ e, findHdurl fs none = Except.error e := by
  induction fs with
  | nil => exact ⟨"missing field hdurl", rfl⟩
  | cons p rest ih =>
    obtain ⟨k, v⟩ := p
    by_cases hk : k = "hdurl"
    · subst hk
      have hv := h v (List.mem_cons_self _ _)
      simp only [findHdurl, if_pos rfl]
      cases v with
      | str t => exact absurd rfl (hv t)
      | num n => exact ⟨_, rfl⟩
      | boolean b => exact ⟨_, rfl⟩
      | null => exact ⟨_, rfl⟩
      | arr es => exact ⟨_, rfl⟩
      | obj fl => exact ⟨_, rfl⟩
    · simp only [findHdurl, if_neg hk]
      exact ih fun w hw => h w (List.mem_cons_of_mem _ hw)

theorem FS.lookup_setFile (fs : FS) (name : String) (content : List Nat) :
    FS.lookup (FS.setFile fs name content) name = some content := by
  induction fs with
  | nil => simp [FS.setFile, FS.lookup]
  | cons p rest ih =>
    obtain ⟨n, c⟩ := p
    by_cases hn : n = name
    · simp [FS.setFile, FS.lookup, hn]
    · simp [FS.setFile, FS.lookup, hn, ih]

theorem mainRun_fs_success (w : World) (k dir : String) (r : ApiResponse)
    (c : List Nat)
    (hk : envVar w.env "APOD_KEY" = some k)
    (hf : fetch_image_data w.fetchResp (apodUrl k) = Except.ok r)
    (hd : w.pictureDir = some dir)
    (hb : w.dlResp r.hdurl = Except.ok (Except.ok c))
    (hc : w.createRes = Except.ok ())
    (hcp : w.copyFail = none) :
    (mainRun w).fs =
      FS.setFile (FS.setFile w.fs (joinPath dir "apod.jpg") [])
        (joinPath dir "apod.jpg") c := by
  rcases hw : linux_background.set_wallpaper
      (envVar w.env "XDG_CURRENT_DESKTOP") w.runCmd
      (joinPath dir "apod.jpg") with ⟨res, cmds⟩
  cases res with
  | error e => simp [mainRun, hk, hf, hd, download_image, hb, hc, hcp, hw]
  | ok u => simp [mainRun, hk, hf, hd, download_image, hb, hc, hcp, hw]

/-! ## Claim theorems -/

/-- Claim C1: for every response whose JSON body is an object containing a
string field `hdurl` (possibly alongside other fields), `fetch_image_data`
returns `Ok` with exactly that `hdurl` string, ignoring unrecognized
fields; for every object body whose `hdurl` field is missing or
non-string, `fetch_image_data` returns an error rather than a default. -/
theorem fetch_hdurl_exact (url : String)
    (fieldsA : List (String × Json)) (s : String)
    (hmem : ("hdurl", Json.str s) ∈ fieldsA)
    (hnodup : (fieldsA.map Prod.fst).Nodup)
    (fieldsB : List (String × Json))
    (hbad : ∀ v, ("hdurl", v) ∈ fieldsB → ∀ t, v ≠ Json.str t) :
    fetch_image_data (fun _ => Except.ok (Json.obj fieldsA)) url
      = Except.ok ⟨s⟩ ∧
    ∃ e, fetch_image_data (fun _ => Except.ok (Json.obj fieldsB)) url
      = Except.error e := by
  constructor
  · simp [fetch_image_data, deserializeApiResponse,
      findHdurl_mem fieldsA s hmem hnodup]
  · obtain ⟨e, he⟩ := findHdurl_no_string fieldsB hbad
    exact ⟨e, by simp [fetch_image_data, deserializeApiResponse, he]⟩

/-- Witness for C1 at a concrete body with an extra field, and a concrete
body whose `hdurl` is a number. -/
theorem fetch_hdurl_exact_witness :
    fetch_image_data (fun _ => Except.ok (Json.obj
        [("date", Json.str "2024-06-01"),
         ("hdurl", Json.str "https://example.com/img.jpg")])) "u"
      = Except.ok ⟨"https://example.com/img.jpg"⟩ ∧
    ∃ e, fetch_image_data (fun _ => Except.ok (Json.obj
        [("hdurl", Json.num 5)])) "u" = Except.error e :=
  fetch_hdurl_exact "u" _ "https://example.com/img.jpg"
    (List.mem_cons_of_mem _ (List.mem_cons_self _ _))
    (by simp)
    [("hdurl", Json.num 5)]
    (by
      intro v hv t heq
      have h5 : v = Json.num 5 := (Prod.ext_iff.mp (List.mem_singleton.mp hv)).2
      rw [h5] at heq
      cases heq)

/-- Claim C2: when the HTTP body at `url` is the byte list `content` and
`download_image url filename` succeeds, the returned path is exactly
`filename` and the file at `filename` holds exactly `content` (hence
exactly `content.length` bytes, byte-identical to the response body). -/
theorem download_image_exact (http : String → Except String (Except String (List Nat)))
    (createRes : Except String Unit) (copyFail : Option (Nat × String))
    (fs : FS) (url filename : String) (content : List Nat) (p : String)
    (hbody : http url = Except.ok (Except.ok content))
    (hok : (download_image http createRes copyFail fs url filename).1
      = Except.ok p) :
    p = filename ∧
    FS.lookup (download_image http createRes copyFail fs url filename).2
      filename = some content := by
  cases createRes with
  | error e => simp [download_image, hbody] at hok
  | ok u =>
    cases copyFail with
    | some ke => simp [download_image, hbody] at hok
    | none =>
      simp only [download_image, hbody] at hok ⊢
      exact ⟨(Except.ok.injEq _ _).mp hok.symm ▸ rfl, FS.lookup_setFile _ _ _⟩

/-- Witness for C2: a 3-byte body is stored byte-identically at `"f"`. -/
theorem download_image_exact_witness :
    "f" = "f" ∧
    FS.lookup (download_image (fun _ => Except.ok (Except.ok [1, 2, 3]))
        (Except.ok ()) none [] "u" "f").2 "f" = some [1, 2, 3] :=
  download_image_exact (fun _ => Except.ok (Except.ok [1, 2, 3]))
    (Except.ok ()) none [] "u" "f" [1, 2, 3] "f" rfl rfl

/-- Claim C7: when `File::create` has succeeded and then the body read or
the copy to disk fails, `download_image` returns an error and leaves the
destination file on disk — empty (body-read failure happens right after
the truncating create) or truncated to a prefix of the body (copy
failure) — with no cleanup and no restoration of previous content. -/
theorem download_image_no_cleanup
    (http : String → Except String (Except String (List Nat)))
    (copyFail : Option (Nat × String)) (fs : FS) (url filename : String)
    (bodyRes : Except String (List Nat))
    (hhttp : http url = Except.ok bodyRes)
    (hfail : (∃ e, bodyRes = Except.error e) ∨
             (∃ c k e, bodyRes = Except.ok c ∧ copyFail = some (k, e))) :
    (∃ e, (download_image http (Except.ok ()) copyFail fs url filename).1
        = Except.error e) ∧
    ∃ c, FS.lookup
        (download_image http (Except.ok ()) copyFail fs url filename).2
        filename = some c ∧
      (c = [] ∨ ∃ body k, bodyRes = Except.ok body ∧ c = body.take k) := by
  rcases hfail with ⟨e, he⟩ | ⟨c, k, e, hc, hcp⟩
  · subst he
    refine ⟨⟨e, ?_⟩, [], ?_, Or.inl rfl⟩
    · simp [download_image, hhttp]
    · simp [download_image, hhttp, FS.lookup_setFile]
  · subst hc; subst hcp
    refine ⟨⟨e, ?_⟩, c.take k, ?_, Or.inr ⟨c, k, rfl, rfl⟩⟩
    · simp [download_image, hhttp]
    · simp [download_image, hhttp, FS.lookup_setFile]

/-- Witness for C7: the body read fails after the create, so an empty file
is left at `"f"`. -/
theorem download_image_no_cleanup_witness :
    (∃ e, (download_image (fun _ => Except.ok (Except.error "read failed"))
        (Except.ok ()) none [] "u" "f").1 = Except.error e) ∧
    ∃ c, FS.lookup (download_image
        (fun _ => Except.ok (Except.error "read failed"))
        (Except.ok ()) none [] "u" "f").2 "f" = some c ∧
      (c = [] ∨ ∃ body k,
        (Except.error "read failed" : Except String (List Nat))
          = Except.ok body ∧ c = body.take k) :=
  download_image_no_cleanup (fun _ => Except.ok (Except.error "read failed"))
    none [] "u" "f" (Except.error "read failed") rfl
    (Or.inl ⟨"read failed", rfl⟩)

/-- Claim C8: the Windows variant of `set_wallpaper` returns `Ok(())` for
every input path and every outcome of the native
`SystemParametersInfoW` call, whose result is discarded. -/
theorem windows_set_wallpaper_always_ok (sysCall : String → Bool)
    (path : String) :
    (windows_background.set_wallpaper sysCall path).1 = Except.ok () := rfl

/-- Claim C5: on Linux, whenever `XDG_CURRENT_DESKTOP` (absent ⇒ `""`)
contains neither `"GNOME"` nor `"KDE"`, `set_wallpaper` returns the
`Unsupported desktop environment` error and invokes no external
command. -/
theorem unsupported_desktop_no_command (xdg : Option String)
    (runCmd : String → List String → Except String CmdOutput) (path : String)
    (hg : strContains (xdg.getD "") "GNOME" = false)
    (hk : strContains (xdg.getD "") "KDE" = false) :
    linux_background.set_wallpaper xdg runCmd path
      = (Except.error "Unsupported desktop environment", []) := by
  simp [linux_background.set_wallpaper, hg, hk]

/-- Witness for C5: the variable is absent. -/
theorem unsupported_desktop_no_command_witness :
    linux_background.set_wallpaper none (fun _ _ => Except.error "spawn")
        "/p/apod.jpg"
      = (Except.error "Unsupported desktop environment", []) :=
  unsupported_desktop_no_command none (fun _ _ => Except.error "spawn")
    "/p/apod.jpg" rfl rfl

/-- Claim C10: dispatch is a case-sensitive substring test in source
order: a value containing `"GNOME"` invokes exactly `gsettings` (even if
it also contains `"KDE"`), a value containing `"KDE"` but not `"GNOME"`
invokes exactly `qdbus`, and lowercase `"gnome"` falls to the unsupported
branch with no command invoked. -/
theorem desktop_dispatch_order (v : String)
    (runCmd : String → List String → Except String CmdOutput)
    (path : String) :
    (strContains v "GNOME" = true →
      (linux_background.set_wallpaper (some v) runCmd path).2
        = [("gsettings", linux_background.gnomeArgs path)]) ∧
    (strContains v "GNOME" = false → strContains v "KDE" = true →
      (linux_background.set_wallpaper (some v) runCmd path).2
        = [("qdbus", linux_background.kdeArgs path)]) ∧
    linux_background.set_wallpaper (some "gnome") runCmd path
      = (Except.error "Unsupported desktop environment", []) := by
  refine ⟨?_, ?_, ?_⟩
  · intro hg
    cases hrun : runCmd "gsettings" (linux_background.gnomeArgs path) with
    | error e => simp [linux_background.set_wallpaper, hg, hrun]
    | ok out =>
      cases hout : out.success <;>
        simp [linux_background.set_wallpaper, hg, hrun, hout]
  · intro hg hk
    cases hrun : runCmd "qdbus" (linux_background.kdeArgs path) with
    | error e => simp [linux_background.set_wallpaper, hg, hk, hrun]
    | ok out =>
      cases hout : out.success <;>
        simp [linux_background.set_wallpaper, hg, hk, hrun, hout]
  · have hg : strContains "gnome" "GNOME" = false := rfl
    have hk : strContains "gnome" "KDE" = false := rfl
    simp [linux_background.set_wallpaper, hg, hk]

/-- Witness for C10: `"KDE:GNOME"` takes the GNOME path even though it
also contains `"KDE"`, and plain `"KDE"` takes the KDE path. -/
theorem desktop_dispatch_order_witness :
    (linux_background.set_wallpaper (some "KDE:GNOME")
        (fun _ _ => Except.ok ⟨true, ""⟩) "/p").2
      = [("gsettings", linux_background.gnomeArgs "/p")] ∧
    (linux_background.set_wallpaper (some "KDE")
        (fun _ _ => Except.ok ⟨true, ""⟩) "/p").2
      = [("qdbus", linux_background.kdeArgs "/p")] :=
  ⟨(desktop_dispatch_order "KDE:GNOME" (fun _ _ => Except.ok ⟨true, ""⟩)
      "/p").1 rfl,
   (desktop_dispatch_order "KDE" (fun _ _ => Except.ok ⟨true, ""⟩)
      "/p").2.1 rfl rfl⟩

/-- Claim C3: when `APOD_KEY` is absent from the environment, the run
panics with the `expect` message and makes zero network calls. -/
theorem missing_key_zero_network (w : World)
    (hk : envVar w.env "APOD_KEY" = none) :
    (mainRun w).netCalls = [] ∧
    (mainRun w).panicMsg = some "APOD_KEY must be set in the environment" ∧
    (mainRun w).exitSuccess = false := by
  simp [mainRun, hk]

/-- Witness for C3: an empty environment. -/
theorem missing_key_zero_network_witness :
    (mainRun ⟨[], fun _ => Except.error "net", fun _ => Except.error "net",
        Except.ok (), none, some "Pics", fun _ _ => Except.error "spawn",
        []⟩).netCalls = [] ∧
    (mainRun ⟨[], fun _ => Except.error "net", fun _ => Except.error "net",
        Except.ok (), none, some "Pics", fun _ _ => Except.error "spawn",
        []⟩).panicMsg = some "APOD_KEY must be set in the environment" ∧
    (mainRun ⟨[], fun _ => Except.error "net", fun _ => Except.error "net",
        Except.ok (), none, some "Pics", fun _ _ => Except.error "spawn",
        []⟩).exitSuccess = false :=
  missing_key_zero_network _ rfl

/-- Claim C4: a failure in the fetch, download or wallpaper stage prints
exactly one line to the error stream and the process still ends with the
default success status (no panic, no exit-code differentiation). -/
theorem stage_failures_default_success (w : World) (k : String)
    (hk : envVar w.env "APOD_KEY" = some k) :
    (∀ e, fetch_image_data w.fetchResp (apodUrl k) = Except.error e →
      (mainRun w).stderrLines = ["Failed to fetch image data: " ++ e] ∧
      (mainRun w).exitSuccess = true ∧ (mainRun w).panicMsg = none) ∧
    (∀ r dir e fs1,
      fetch_image_data w.fetchResp (apodUrl k) = Except.ok r →
      w.pictureDir = some dir →
      download_image w.dlResp w.createRes w.copyFail w.fs r.hdurl
          (joinPath dir "apod.jpg") = (Except.error e, fs1) →
      (mainRun w).stderrLines = ["Failed to download image: " ++ e] ∧
      (mainRun w).exitSuccess = true ∧ (mainRun w).panicMsg = none) ∧
    (∀ r dir p fs1 e cmds,
      fetch_image_data w.fetchResp (apodUrl k) = Except.ok r →
      w.pictureDir = some dir →
      download_image w.dlResp w.createRes w.copyFail w.fs r.hdurl
          (joinPath dir "apod.jpg") = (Except.ok p, fs1) →
      linux_background.set_wallpaper (envVar w.env "XDG_CURRENT_DESKTOP")
          w.runCmd p = (Except.error e, cmds) →
      (mainRun w).stderrLines = ["Failed to set wallpaper on Linux: " ++ e] ∧
      (mainRun w).exitSuccess = true ∧ (mainRun w).panicMsg = none) := by
  refine ⟨?_, ?_, ?_⟩
  · intro e hf
    simp [mainRun, hk, hf]
  · intro r dir e fs1 hf hd hdl
    simp [mainRun, hk, hf, hd, hdl]
  · intro r dir p fs1 e cmds hf hd hdl hw
    simp [mainRun, hk, hf, hd, hdl, hw]

/-- Witness for C4: a refused connection on the metadata fetch is reported
on the error stream and the process still exits successfully. -/
theorem stage_failures_default_success_witness :
    (mainRun ⟨[("APOD_KEY", "k")], fun _ => Except.error "conn refused",
        fun _ => Except.error "net", Except.ok (), none, some "Pics",
        fun _ _ => Except.error "spawn", []⟩).stderrLines
      = ["Failed to fetch image data: " ++ "conn refused"] ∧
    (mainRun ⟨[("APOD_KEY", "k")], fun _ => Except.error "conn refused",
        fun _ => Except.error "net", Except.ok (), none, some "Pics",
        fun _ _ => Except.error "spawn", []⟩).exitSuccess = true ∧
    (mainRun ⟨[("APOD_KEY", "k")], fun _ => Except.error "conn refused",
        fun _ => Except.error "net", Except.ok (), none, some "Pics",
        fun _ _ => Except.error "spawn", []⟩).panicMsg = none :=
  (stage_failures_default_success
    ⟨[("APOD_KEY", "k")], fun _ => Except.error "conn refused",
     fun _ => Except.error "net", Except.ok (), none, some "Pics",
     fun _ _ => Except.error "spawn", []⟩ "k" rfl).1 "conn refused" rfl

/-- Claim C9: an unresolvable pictures directory panics with
`Could not find picture directory` after a successful fetch, writing no
`eprintln!` line and not exiting with the default success status. -/
theorem picture_dir_panic (w : World) (k : String) (r : ApiResponse)
    (hk : envVar w.env "APOD_KEY" = some k)
    (hf : fetch_image_data w.fetchResp (apodUrl k) = Except.ok r)
    (hd : w.pictureDir = none) :
    (mainRun w).panicMsg = some "Could not find picture directory" ∧
    (mainRun w).stderrLines = [] ∧
    (mainRun w).exitSuccess = false ∧
    (mainRun w).netCalls = [apodUrl k] := by
  simp [mainRun, hk, hf, hd]

/-- Witness for C9: a successful fetch with no pictures directory. -/
theorem picture_dir_panic_witness :
    (mainRun ⟨[("APOD_KEY", "k")],
        fun _ => Except.ok (Json.obj [("hdurl", Json.str "http://i")]),
        fun _ => Except.error "net", Except.ok (), none, none,
        fun _ _ => Except.error "spawn", []⟩).panicMsg
      = some "Could not find picture directory" ∧
    (mainRun ⟨[("APOD_KEY", "k")],
        fun _ => Except.ok (Json.obj [("hdurl", Json.str "http://i")]),
        fun _ => Except.error "net", Except.ok (), none, none,
        fun _ _ => Except.error "spawn", []⟩).stderrLines = [] ∧
    (mainRun ⟨[("APOD_KEY", "k")],
        fun _ => Except.ok (Json.obj [("hdurl", Json.str "http://i")]),
        fun _ => Except.error "net", Except.ok (), none, none,
        fun _ _ => Except.error "spawn", []⟩).exitSuccess = false ∧
    (mainRun ⟨[("APOD_KEY", "k")],
        fun _ => Except.ok (Json.obj [("hdurl", Json.str "http://i")]),
        fun _ => Except.error "net", Except.ok (), none, none,
        fun _ _ => Except.error "spawn", []⟩).netCalls = [apodUrl "k"] :=
  picture_dir_panic _ "k" ⟨"http://i"⟩ rfl rfl rfl

/-- Claim C6: two successive successful pipeline runs with the same API
key both write the fixed filename `apod.jpg` joined to the pictures
directory; the second run truncates and overwrites the first run's file,
so exactly one file exists afterwards (it holds the second run's bytes). -/
theorem pipeline_overwrite_single_file (w1 w2 : World) (k dir : String)
    (r1 r2 : ApiResponse) (c1 c2 : List Nat)
    (hk1 : envVar w1.env "APOD_KEY" = some k)
    (hk2 : envVar w2.env "APOD_KEY" = some k)
    (hd1 : w1.pictureDir = some dir) (hd2 : w2.pictureDir = some dir)
    (hf1 : fetch_image_data w1.fetchResp (apodUrl k) = Except.ok r1)
    (hf2 : fetch_image_data w2.fetchResp (apodUrl k) = Except.ok r2)
    (hb1 : w1.dlResp r1.hdurl = Except.ok (Except.ok c1))
    (hb2 : w2.dlResp r2.hdurl = Except.ok (Except.ok c2))
    (hc1 : w1.createRes = Except.ok ()) (hc2 : w2.createRes = Except.ok ())
    (hcp1 : w1.copyFail = none) (hcp2 : w2.copyFail = none)
    (hfs1 : w1.fs = [])
    (hfs2 : w2.fs = (mainRun w1).fs) :
    (mainRun w2).fs = [(joinPath dir "apod.jpg", c2)] ∧
    (mainRun w2).fs.length = 1 := by
  have h1 := mainRun_fs_success w1 k dir r1 c1 hk1 hf1 hd1 hb1 hc1 hcp1
  rw [hfs1] at h1
  have h1s : (mainRun w1).fs = [(joinPath dir "apod.jpg", c1)] := by
    rw [h1]; simp [FS.setFile]
  have h2 := mainRun_fs_success w2 k dir r2 c2 hk2 hf2 hd2 hb2 hc2 hcp2
  rw [hfs2, h1s] at h2
  have h2s : (mainRun w2).fs = [(joinPath dir "apod.jpg", c2)] := by
    rw [h2]; simp [FS.setFile]
  exact ⟨h2s, by rw [h2s]; rfl⟩

/-- Witness for C6: two concrete runs, the second starting from the first
run's filesystem, leave the single file `Pics/apod.jpg` with the second
run's bytes. -/
theorem pipeline_overwrite_single_file_witness :
    (mainRun ⟨[("APOD_KEY", "k")],
        fun _ => Except.ok (Json.obj [("hdurl", Json.str "http://img2")]),
        fun _ => Except.ok (Except.ok [7, 8]), Except.ok (), none,
        some "Pics", fun _ _ => Except.error "spawn",
        [(joinPath "Pics" "apod.jpg", [1, 2, 3])]⟩).fs
      = [(joinPath "Pics" "apod.jpg", [7, 8])] ∧
    (mainRun ⟨[("APOD_KEY", "k")],
        fun _ => Except.ok (Json.obj [("hdurl", Json.str "http://img2")]),
        fun _ => Except.ok (Except.ok [7, 8]), Except.ok (), none,
        some "Pics", fun _ _ => Except.error "spawn",
        [(joinPath "Pics" "apod.jpg", [1, 2, 3])]⟩).fs.length = 1 :=
  pipeline_overwrite_single_file
    ⟨[("APOD_KEY", "k")],
     fun _ => Except.ok (Json.obj [("hdurl", Json.str "http://img1")]),
     fun _ => Except.ok (Except.ok [1, 2, 3]), Except.ok (), none,
     some "Pics", fun _ _ => Except.error "spawn", []⟩
    ⟨[("APOD_KEY", "k")],
     fun _ => Except.ok (Json.obj [("hdurl", Json.str "http://img2")]),
     fun _ => Except.ok (Except.ok [7, 8]), Except.ok (), none,
     some "Pics", fun _ _ => Except.error "spawn",
     [(joinPath "Pics" "apod.jpg", [1, 2, 3])]⟩
    "k" "Pics" ⟨"http://img1"⟩ ⟨"http://img2"⟩ [1, 2, 3] [7, 8]
    rfl rfl rfl rfl rfl rfl rfl rfl rfl rfl rfl rfl rfl rfl
